import Mathlib

/-!
Shallow embedding of the hawkop CLI request/auth pipeline, translated from
internal/config/config.go and internal/api/client.go.

Modelling conventions:
- Wall-clock instants are natural numbers (config expiry comparisons use the
  same unit as the caller supplies; the rate limiter counts milliseconds).
- A Go nil pointer (nil *JWT, zero time.Time) is Option.none.
- Network calls are oracles: the outcome of each HTTPClient.Do call and of
  the authenticate() helper are passed in as explicit arguments, and the
  executor records a trace (result, number of sends, number of
  EnsureValidJWT calls, whether the JWT was cleared, sleeps performed).
- Go maps of query parameters are association lists; keys written by the
  source are pairwise distinct, so insertion order does not change lookups.
-/

namespace Hawkop

/-- JWT mirrors config.JWT: a token string with an expiry instant
(time.Time modelled as a Nat instant). -/
structure JWT where
  token : String
  expiresAt : Nat
deriving Repr, DecidableEq

/-- IsExpired mirrors (*JWT).IsExpired: a nil receiver is expired, otherwise
the token is expired when time.Now().After(expiresAt) holds, i.e. strictly
after the expiry instant. -/
def isExpired (j : Option JWT) (now : Nat) : Bool :=
  match j with
  | none => true
  | some jw => decide (jw.expiresAt < now)

/-- IsValid mirrors (*JWT).IsValid: non-nil, non-empty token, not expired. -/
def isValid (j : Option JWT) (now : Nat) : Bool :=
  match j with
  | none => false
  | some jw => jw.token != "" && !(isExpired (some jw) now)

/-- Config mirrors config.Config: API key, default org id and cached JWT. -/
structure Config where
  apiKey : String
  orgID : String
  jwt : Option JWT
deriving Repr, DecidableEq

/-- HasValidCredentials mirrors Config.HasValidCredentials. -/
def hasValidCredentials (c : Config) : Bool :=
  c.apiKey != ""

/-- NeedsJWTRefresh mirrors Config.NeedsJWTRefresh: credentials present and
the JWT nil or expired. -/
def needsJWTRefresh (c : Config) (now : Nat) : Bool :=
  hasValidCredentials c && (c.jwt.isNone || isExpired c.jwt now)

/-- EnsureValidJWT mirrors Client.EnsureValidJWT. The authenticate() network
call is an oracle argument; the second component of the result counts how
many login calls were issued (0 or 1). -/
def ensureValidJWT (c : Config) (now : Nat) (authResult : Except String Unit) :
    Except String Unit × Nat :=
  if !(needsJWTRefresh c now) then (Except.ok (), 0)
  else if !(hasValidCredentials c) then
    (Except.error "no API key configured - run \x27hawkop init\x27 to set up credentials", 0)
  else (authResult, 1)

/-- HttpResponse models the parts of *http.Response the executor inspects:
status code, body, and the Retry-After header (Header.Get returns the empty
string when the header is absent). -/
structure HttpResponse where
  status : Nat
  body : String
  retryAfter : String
deriving Repr, DecidableEq

/-- DoResult models the outcome of one HTTPClient.Do call: a response or a
transport-level error message. -/
inductive DoResult where
  | ok (r : HttpResponse)
  | err (msg : String)
deriving Repr, DecidableEq

/-- ApiError models the error taxonomy of makeRequestWithRetry: one
constructor per fmt.Errorf branch, carrying the data interpolated there. -/
inductive ApiError where
  | transport (msg : String)
  | refreshFailed (msg : String)
  | badRequest (body : String)
  | forbidden (body : String)
  | notFound (body : String)
  | conflict (body : String)
  | unprocessable (body : String)
  | generic (status : Nat) (body : String)
deriving Repr, DecidableEq

/-- RetryTrace records what one makeRequestWithRetry invocation did: its
result, how many HTTPClient.Do calls it made, how many EnsureValidJWT calls
it made, whether it cleared the cached JWT, whether it reattached the
Authorization header for a resend, and the sleep durations it performed
(Go time.Duration values, i.e. nanoseconds; time.Sleep of a non-positive
duration returns immediately). -/
structure RetryTrace where
  result : Except ApiError HttpResponse
  sends : Nat
  ensureCalls : Nat
  clearedJWT : Bool
  tokenReattached : Bool
  sleeps : List Int

/-- goDigitsToNat folds a run of decimal digit characters into a Nat, as
strconv.Atoi does for the digit run. -/
def goDigitsToNat (digits : List Char) : Nat :=
  digits.foldl (fun acc c => acc * 10 + (c.toNat - 48)) 0

/-- goAtoi mirrors strconv.Atoi on a 64-bit platform: an optional leading
sign, then a non-empty run of decimal digits, and an out-of-range int64
value is an error. The string is processed as its character list. -/
def goAtoi (s : String) : Option Int :=
  let signed : Bool × List Char :=
    match s.data with
    | c :: rest =>
      if c = '-' then (true, rest)
      else if c = '+' then (false, rest)
      else (false, c :: rest)
    | [] => (false, [])
  let neg := signed.1
  let digits := signed.2
  if digits.isEmpty then none
  else if digits.all (fun c => c.isDigit) then
    let n := goDigitsToNat digits
    if neg then
      if n ≤ 2 ^ 63 then some (-(n : Int)) else none
    else
      if n ≤ 2 ^ 63 - 1 then some (n : Int) else none
  else none

/-- wrap64 reduces an integer to the int64 range with the two's-complement
wrap-around Go integer arithmetic performs on overflow. -/
def wrap64 (n : Int) : Int :=
  (n + 2 ^ 63) % 2 ^ 64 - 2 ^ 63

/-- goSecondsToDuration mirrors time.Duration(seconds) * time.Second: an
int64 multiplication by 1e9 nanoseconds that wraps on overflow (so for
seconds beyond about 9.2e9 the resulting duration differs from the
requested wait and can be negative). -/
def goSecondsToDuration (seconds : Int) : Int :=
  wrap64 (seconds * 1000000000)

/-- RetryAfterDefault mirrors the 60 * time.Second constant, as a
time.Duration in nanoseconds (a compile-time constant, no wrap). -/
def RetryAfterDefault : Int := 60 * 1000000000

/-- makeRequestWithRetry mirrors Client.makeRequestWithRetry. The first and
(at most one) second HTTPClient.Do outcomes and the EnsureValidJWT outcome
used in the 401 branch are oracle arguments; the trace records the side
effects each branch performs. -/
def makeRequestWithRetry (first second : DoResult)
    (ensureResult : Except String Unit) : RetryTrace :=
  match first with
  | .err msg =>
    { result := .error (.transport ("request failed: " ++ msg)),
      sends := 1, ensureCalls := 0, clearedJWT := false,
      tokenReattached := false, sleeps := [] }
  | .ok resp =>
    if resp.status = 200 ∨ resp.status = 201 ∨ resp.status = 202 then
      { result := .ok resp, sends := 1, ensureCalls := 0, clearedJWT := false,
        tokenReattached := false, sleeps := [] }
    else if resp.status = 401 then
      match ensureResult with
      | .error e =>
        { result := .error (.refreshFailed ("failed to refresh token after 401: " ++ e)),
          sends := 1, ensureCalls := 1, clearedJWT := true,
          tokenReattached := false, sleeps := [] }
      | .ok _ =>
        match second with
        | .err m =>
          { result := .error (.transport ("retry request failed: " ++ m)),
            sends := 2, ensureCalls := 1, clearedJWT := true,
            tokenReattached := true, sleeps := [] }
        | .ok r2 =>
          { result := .ok r2, sends := 2, ensureCalls := 1, clearedJWT := true,
            tokenReattached := true, sleeps := [] }
    else if resp.status = 429 then
      let retryAfter : Int :=
        if resp.retryAfter ≠ "" then
          match goAtoi resp.retryAfter with
          | some seconds => goSecondsToDuration seconds
          | none => RetryAfterDefault
        else RetryAfterDefault
      match second with
      | .err m =>
        { result := .error (.transport ("retry after rate limit failed: " ++ m)),
          sends := 2, ensureCalls := 0, clearedJWT := false,
          tokenReattached := false, sleeps := [retryAfter] }
      | .ok r2 =>
        { result := .ok r2, sends := 2, ensureCalls := 0, clearedJWT := false,
          tokenReattached := false, sleeps := [retryAfter] }
    else if resp.status = 400 then
      { result := .error (.badRequest resp.body), sends := 1, ensureCalls := 0,
        clearedJWT := false, tokenReattached := false, sleeps := [] }
    else if resp.status = 403 then
      { result := .error (.forbidden resp.body), sends := 1, ensureCalls := 0,
        clearedJWT := false, tokenReattached := false, sleeps := [] }
    else if resp.status = 404 then
      { result := .error (.notFound resp.body), sends := 1, ensureCalls := 0,
        clearedJWT := false, tokenReattached := false, sleeps := [] }
    else if resp.status = 409 then
      { result := .error (.conflict resp.body), sends := 1, ensureCalls := 0,
        clearedJWT := false, tokenReattached := false, sleeps := [] }
    else if resp.status = 422 then
      { result := .error (.unprocessable resp.body), sends := 1, ensureCalls := 0,
        clearedJWT := false, tokenReattached := false, sleeps := [] }
    else
      { result := .error (.generic resp.status resp.body), sends := 1,
        ensureCalls := 0, clearedJWT := false, tokenReattached := false,
        sleeps := [] }

/-- getScanAlertsStatusCheck mirrors the status guard in Client.GetScanAlerts:
a non-200 response surfaces as an API error carrying status and body. -/
def getScanAlertsStatusCheck (r : HttpResponse) : Except ApiError HttpResponse :=
  if r.status ≠ 200 then .error (.generic r.status r.body) else .ok r

/-- MaxRequestsPerMinute mirrors the rate limiting constant. -/
def MaxRequestsPerMinute : Nat := 360

/-- minIntervalMs mirrors the 167 * time.Millisecond interval in
respectRateLimit (360 per minute means 6 per second). -/
def minIntervalMs : Nat := 167

/-- respectRateLimit mirrors Client.respectRateLimit, returning the sleep
duration (ms) it performs: zero when lastRequest is the zero time, otherwise
whatever is left of the minimum interval since lastRequest. -/
def respectRateLimit (lastRequest : Option Nat) (now : Nat) : Nat :=
  match lastRequest with
  | none => 0
  | some t => if now - t < minIntervalMs then minIntervalMs - (now - t) else 0

/-- sendTime is the instant the request actually goes out: the arrival
instant plus the sleep respectRateLimit performs. -/
def sendTime (lastRequest : Option Nat) (now : Nat) : Nat :=
  now + respectRateLimit lastRequest now

/-- runCalls drives a sequence of DoAuthenticatedRequestWithParams calls
through the rate limiter: each list entry is (idle gap before the call,
request duration). A call arrives gap ms after the previous call completed,
is throttled, goes out at its sendTime, and lastRequest is set to its
completion instant, as client.go does after makeRequestWithRetry returns.
The returned list holds the send instants. -/
def runCalls : Option Nat → Nat → List (Nat × Nat) → List Nat
  | _, _, [] => []
  | last, now, (gap, dur) :: rest =>
    sendTime last (now + gap) ::
      runCalls (some (sendTime last (now + gap) + dur))
        (sendTime last (now + gap) + dur) rest

/-- DefaultPageSize mirrors the pagination constant (always 1000). -/
def DefaultPageSize : Int := 1000

/-- MaxPageSize mirrors the pagination constant. -/
def MaxPageSize : Int := 1000

/-- PaginationOptions mirrors api.PaginationOptions; Go zero values ("" and
non-positive size) mean the field was not supplied. -/
structure PaginationOptions where
  pageSize : Int
  pageToken : String
  page : String
  sortField : String
  sortDir : String
deriving Repr, DecidableEq

/-- setParam models assignment into a Go map[string]string: replace the
value when the key is present, otherwise add the binding. -/
def setParam (m : List (String × String)) (key value : String) :
    List (String × String) :=
  if m.any (fun p => p.1 = key) then
    m.map (fun p => if p.1 = key then (key, value) else p)
  else m ++ [(key, value)]

/-- lookupParam models reading a key out of a Go map[string]string: the
value of the first binding of the key, if any. -/
def lookupParam : List (String × String) → String → Option String
  | [], _ => none
  | p :: rest, key => if p.1 = key then some p.2 else lookupParam rest key

/-- BuildStandardParams mirrors Client.BuildStandardParams: start from
pageSize = DefaultPageSize, then apply every override with a non-empty
value. -/
def BuildStandardParams (overrides : List (String × String)) :
    List (String × String) :=
  overrides.foldl
    (fun params kv => if kv.2 ≠ "" then setParam params kv.1 kv.2 else params)
    [("pageSize", toString DefaultPageSize)]

/-- scanListOverrides mirrors the overrides map built inside
Client.ListOrganizationScansWithOptions: a positive requested pageSize is
clamped to MaxPageSize, and each non-empty optional field is added under
its own key. -/
def scanListOverrides (opts : Option PaginationOptions) :
    List (String × String) :=
  match opts with
  | none => []
  | some o =>
    (if o.pageSize > 0 then
        [("pageSize",
          toString (if o.pageSize > MaxPageSize then MaxPageSize else o.pageSize))]
      else [])
    ++ (if o.pageToken ≠ "" then [("pageToken", o.pageToken)] else [])
    ++ (if o.page ≠ "" then [("page", o.page)] else [])
    ++ (if o.sortField ≠ "" then [("sortField", o.sortField)] else [])
    ++ (if o.sortDir ≠ "" then [("sortDir", o.sortDir)] else [])

/-- ListOrganizationScansParams is the query-parameter map
ListOrganizationScansWithOptions puts on the wire. -/
def ListOrganizationScansParams (opts : Option PaginationOptions) :
    List (String × String) :=
  BuildStandardParams (scanListOverrides opts)

/-- Organization mirrors api.Organization (the optional settings and
subscription metadata records, never inspected by the client logic, are
elided as payload). -/
structure Organization where
  id : String
  name : String
  plan : String
  createdTimestamp : String
deriving Repr, DecidableEq

/-- OrganizationMembership mirrors api.OrganizationMembership. -/
structure OrganizationMembership where
  organization : Organization
  role : String
deriving Repr, DecidableEq

/-- UserExternal mirrors api.UserExternal. -/
structure UserExternal where
  id : String
  email : String
  firstName : String
  lastName : String
  fullName : String
  avatarUrl : String
  organizations : List OrganizationMembership
deriving Repr, DecidableEq

/-- User mirrors api.User. -/
structure User where
  stackhawkId : String
  external : UserExternal
deriving Repr, DecidableEq

/-- ListOrganizations mirrors the projection loop in
Client.ListOrganizations: append each membership's organization in range
order. -/
def ListOrganizations (u : User) : List Organization :=
  u.external.organizations.foldl (fun acc m => acc ++ [m.organization]) []

/-- ScanAlert mirrors api.ScanAlert. -/
structure ScanAlert where
  pluginId : String
  name : String
  description : String
  severity : String
  references : List String
  uriCount : Nat
  cweId : String
deriving Repr, DecidableEq

/-- ApplicationAlertsResult mirrors the anonymous per-application result
record inside api.ScanAlertsResponse. -/
structure ApplicationAlertsResult where
  applicationAlerts : List ScanAlert
deriving Repr, DecidableEq

/-- ScanAlertsResponse mirrors api.ScanAlertsResponse. -/
structure ScanAlertsResponse where
  applicationScanResults : List ApplicationAlertsResult
  nextPageToken : String
deriving Repr, DecidableEq

/-- GetScanAlertsExtract mirrors the flattening loop in
Client.GetScanAlerts: append each per-application alerts array in range
order. -/
def GetScanAlertsExtract (resp : ScanAlertsResponse) : List ScanAlert :=
  resp.applicationScanResults.foldl (fun acc r => acc ++ r.applicationAlerts) []

/-- Folding append-of-singleton over a list builds the accumulator followed
by the mapped list. -/
theorem foldl_append_singleton {α β : Type} (f : α → β) :
    ∀ (l : List α) (acc : List β),
      l.foldl (fun a m => a ++ [f m]) acc = acc ++ l.map f := by
  intro l
  induction l with
  | nil => intro acc; simp
  | cons x xs ih => intro acc; simp [ih]

/-- Folding append-of-list over a list builds the accumulator followed by
the join of the mapped list. -/
theorem foldl_append_lists {α β : Type} (f : α → List β) :
    ∀ (l : List α) (acc : List β),
      l.foldl (fun a r => a ++ f r) acc = acc ++ (l.map f).flatten := by
  intro l
  induction l with
  | nil => intro acc; simp
  | cons x xs ih => intro acc; simp [ih]

/-- C1: the claim says EnsureValidJWT fails with a NoCredentials error when
the token is absent or expired and no API key is configured, and never
silently succeeds without a valid token or an API key. The code disagrees:
NeedsJWTRefresh requires HasValidCredentials, so with an empty API key and
no cached JWT the refresh check is false and EnsureValidJWT returns success
with zero login calls; the NoCredentials branch is unreachable. -/
theorem ensureValidJWT_silent_success_without_key :
    ∀ (authResult : Except String Unit) (now : Nat),
      ensureValidJWT { apiKey := "", orgID := "", jwt := none } now authResult
        = (Except.ok (), 0) := by
  intro authResult now
  rfl

/-- C2 counterexample: the claim says a token is already expired at the
exact instant now = expiresAt, but IsExpired uses time.Now().After, which
is strict, so at now = expiresAt the token is not yet expired. -/
theorem isExpired_at_exact_expiry_counterexample :
    isExpired (some { token := "tok", expiresAt := 5 }) 5 = false := rfl

/-- C2 amended: isExpired is true when the token is nil and true exactly
when now is strictly after expiresAt; at now = expiresAt the token is not
yet considered expired. -/
theorem isExpired_amended (j : Option JWT) (now : Nat) :
    isExpired j now = true ↔ j = none ∨ ∃ jw, j = some jw ∧ jw.expiresAt < now := by
  cases j with
  | none => simp [isExpired]
  | some jw => simp [isExpired]

/-- C2 amended, evaluated: a nil token is expired at instant 0. -/
theorem isExpired_amended_witness : isExpired none 0 = true :=
  (isExpired_amended none 0).mpr (Or.inl rfl)

/-- A 401 first response with a failing EnsureValidJWT ends with the
refresh error, one send, one ensure call and a cleared JWT. -/
theorem mrwr_401_ensureErr (r : HttpResponse) (h : r.status = 401)
    (second : DoResult) (e : String) :
    makeRequestWithRetry (.ok r) second (.error e) =
      { result := .error (.refreshFailed ("failed to refresh token after 401: " ++ e)),
        sends := 1, ensureCalls := 1, clearedJWT := true,
        tokenReattached := false, sleeps := [] } := by
  have h2xx : ¬(r.status = 200 ∨ r.status = 201 ∨ r.status = 202) := by
    rw [h]; decide
  simp only [makeRequestWithRetry]
  rw [if_neg h2xx, if_pos h]

/-- A 401 first response with a succeeding EnsureValidJWT resends once and
returns the second outcome as-is (response case). -/
theorem mrwr_401_retry_ok (r : HttpResponse) (h : r.status = 401)
    (r2 : HttpResponse) :
    makeRequestWithRetry (.ok r) (.ok r2) (.ok ()) =
      { result := .ok r2, sends := 2, ensureCalls := 1, clearedJWT := true,
        tokenReattached := true, sleeps := [] } := by
  have h2xx : ¬(r.status = 200 ∨ r.status = 201 ∨ r.status = 202) := by
    rw [h]; decide
  simp only [makeRequestWithRetry]
  rw [if_neg h2xx, if_pos h]

/-- A 401 first response with a succeeding EnsureValidJWT resends once and
surfaces a transport failure of the resend. -/
theorem mrwr_401_retry_err (r : HttpResponse) (h : r.status = 401)
    (m : String) :
    makeRequestWithRetry (.ok r) (.err m) (.ok ()) =
      { result := .error (.transport ("retry request failed: " ++ m)),
        sends := 2, ensureCalls := 1, clearedJWT := true,
        tokenReattached := true, sleeps := [] } := by
  have h2xx : ¬(r.status = 200 ∨ r.status = 201 ∨ r.status = 202) := by
    rw [h]; decide
  simp only [makeRequestWithRetry]
  rw [if_neg h2xx, if_pos h]

/-- A 429 first response sleeps once (Retry-After if it parses, else the
default) and resends; response case. -/
theorem mrwr_429_retry_ok (r : HttpResponse) (h : r.status = 429)
    (r2 : HttpResponse) (ens : Except String Unit) :
    makeRequestWithRetry (.ok r) (.ok r2) ens =
      { result := .ok r2, sends := 2, ensureCalls := 0, clearedJWT := false,
        tokenReattached := false,
        sleeps := [if r.retryAfter ≠ "" then
            (match goAtoi r.retryAfter with
              | some seconds => goSecondsToDuration seconds
              | none => RetryAfterDefault)
          else RetryAfterDefault] } := by
  have h2xx : ¬(r.status = 200 ∨ r.status = 201 ∨ r.status = 202) := by
    rw [h]; decide
  have h401 : ¬(r.status = 401) := by rw [h]; decide
  simp only [makeRequestWithRetry]
  rw [if_neg h2xx, if_neg h401, if_pos h]

/-- A 429 first response sleeps once and resends; transport-failure case. -/
theorem mrwr_429_retry_err (r : HttpResponse) (h : r.status = 429)
    (m : String) (ens : Except String Unit) :
    makeRequestWithRetry (.ok r) (.err m) ens =
      { result := .error (.transport ("retry after rate limit failed: " ++ m)),
        sends := 2, ensureCalls := 0, clearedJWT := false,
        tokenReattached := false,
        sleeps := [if r.retryAfter ≠ "" then
            (match goAtoi r.retryAfter with
              | some seconds => goSecondsToDuration seconds
              | none => RetryAfterDefault)
          else RetryAfterDefault] } := by
  have h2xx : ¬(r.status = 200 ∨ r.status = 201 ∨ r.status = 202) := by
    rw [h]; decide
  have h401 : ¬(r.status = 401) := by rw [h]; decide
  simp only [makeRequestWithRetry]
  rw [if_neg h2xx, if_neg h401, if_pos h]

/-- C3 counterexample: the claim says every 2xx status is returned as
success and never mapped to an error, but 204 (No Content) is 2xx and the
executor maps it to the generic API error carrying status and body. -/
theorem classify204_counterexample :
    (makeRequestWithRetry
        (.ok { status := 204, body := "no content", retryAfter := "" })
        (.ok { status := 204, body := "no content", retryAfter := "" })
        (.ok ())).result
      = Except.error (ApiError.generic 204 "no content") := rfl

/-- C3 amended: the executor returns success with the raw response exactly
for statuses 200, 201 and 202, and every other status outside 400, 401,
403, 404, 409, 422 and 429 (including the remaining 2xx statuses) fails
with the generic API-error kind carrying status and body. -/
theorem classify_status_amended (r : HttpResponse) (second : DoResult)
    (ens : Except String Unit) :
    (r.status = 200 ∨ r.status = 201 ∨ r.status = 202 →
      makeRequestWithRetry (.ok r) second ens =
        { result := .ok r, sends := 1, ensureCalls := 0, clearedJWT := false,
          tokenReattached := false, sleeps := [] }) ∧
    (r.status ∉ ([200, 201, 202, 400, 401, 403, 404, 409, 422, 429] : List Nat) →
      makeRequestWithRetry (.ok r) second ens =
        { result := .error (.generic r.status r.body), sends := 1,
          ensureCalls := 0, clearedJWT := false, tokenReattached := false,
          sleeps := [] }) := by
  constructor
  · intro h
    simp only [makeRequestWithRetry]
    rw [if_pos h]
  · intro h
    simp only [List.mem_cons, not_or] at h
    obtain ⟨h200, h201, h202, h400, h401, h403, h404, h409, h422, h429, -⟩ := h
    have h2xx : ¬(r.status = 200 ∨ r.status = 201 ∨ r.status = 202) := by
      push_neg; exact ⟨h200, h201, h202⟩
    simp only [makeRequestWithRetry]
    rw [if_neg h2xx, if_neg h401, if_neg h429, if_neg h400, if_neg h403,
      if_neg h404, if_neg h409, if_neg h422]

/-- C3 amended, evaluated: a 200 response is returned as success and a 500
response becomes the generic API error. -/
theorem classify_status_amended_witness :
    makeRequestWithRetry (.ok { status := 200, body := "", retryAfter := "" })
        (.err "m") (.ok ()) =
      { result := .ok { status := 200, body := "", retryAfter := "" },
        sends := 1, ensureCalls := 0, clearedJWT := false,
        tokenReattached := false, sleeps := [] } ∧
    makeRequestWithRetry (.ok { status := 500, body := "boom", retryAfter := "" })
        (.err "m") (.ok ()) =
      { result := .error (.generic 500 "boom"), sends := 1, ensureCalls := 0,
        clearedJWT := false, tokenReattached := false, sleeps := [] } :=
  ⟨(classify_status_amended { status := 200, body := "", retryAfter := "" }
      (.err "m") (.ok ())).1 (Or.inl rfl),
   (classify_status_amended { status := 500, body := "boom", retryAfter := "" }
      (.err "m") (.ok ())).2 (by decide)⟩

/-- C4: on a 401 the executor clears the cached token, calls EnsureValidJWT
exactly once, reattaches the token and resends exactly once, returning the
retry outcome as-is (a transport failure of the retry is surfaced); when the
retry is itself a 401 there is no further retry (still two sends) and the
caller-side status check surfaces it as a terminal API error. -/
theorem retry401_spec (r : HttpResponse) (h : r.status = 401) :
    (∀ (e : String) (second : DoResult),
      makeRequestWithRetry (.ok r) second (.error e) =
        { result := .error (.refreshFailed ("failed to refresh token after 401: " ++ e)),
          sends := 1, ensureCalls := 1, clearedJWT := true,
          tokenReattached := false, sleeps := [] }) ∧
    (∀ r2 : HttpResponse,
      makeRequestWithRetry (.ok r) (.ok r2) (.ok ()) =
        { result := .ok r2, sends := 2, ensureCalls := 1, clearedJWT := true,
          tokenReattached := true, sleeps := [] }) ∧
    (∀ m : String,
      makeRequestWithRetry (.ok r) (.err m) (.ok ()) =
        { result := .error (.transport ("retry request failed: " ++ m)),
          sends := 2, ensureCalls := 1, clearedJWT := true,
          tokenReattached := true, sleeps := [] }) ∧
    (∀ r2 : HttpResponse, r2.status = 401 →
      (makeRequestWithRetry (.ok r) (.ok r2) (.ok ())).result = Except.ok r2 ∧
      (makeRequestWithRetry (.ok r) (.ok r2) (.ok ())).sends = 2 ∧
      getScanAlertsStatusCheck r2 = Except.error (ApiError.generic 401 r2.body)) := by
  refine ⟨fun e second => mrwr_401_ensureErr r h second e,
    fun r2 => mrwr_401_retry_ok r h r2,
    fun m => mrwr_401_retry_err r h m,
    fun r2 h2 => ?_⟩
  have hrec := mrwr_401_retry_ok r h r2
  refine ⟨by rw [hrec], by rw [hrec], ?_⟩
  have h200 : r2.status ≠ 200 := by rw [h2]; decide
  simp only [getScanAlertsStatusCheck]
  rw [if_pos h200, h2]

/-- C4, evaluated at two consecutive 401 responses. -/
theorem retry401_spec_witness :
    (makeRequestWithRetry
        (.ok { status := 401, body := "unauthorized", retryAfter := "" })
        (.ok { status := 401, body := "unauthorized", retryAfter := "" })
        (.ok ())).result
      = Except.ok { status := 401, body := "unauthorized", retryAfter := "" } ∧
    (makeRequestWithRetry
        (.ok { status := 401, body := "unauthorized", retryAfter := "" })
        (.ok { status := 401, body := "unauthorized", retryAfter := "" })
        (.ok ())).sends = 2 ∧
    getScanAlertsStatusCheck { status := 401, body := "unauthorized", retryAfter := "" }
      = Except.error (ApiError.generic 401 "unauthorized") :=
  (retry401_spec { status := 401, body := "unauthorized", retryAfter := "" }
      rfl).2.2.2 { status := 401, body := "unauthorized", retryAfter := "" } rfl

/-- Int64 wrap-around is the identity on values already in the int64
range. -/
theorem wrap64_eq_self (n : Int) (h1 : -(2 ^ 63) ≤ n) (h2 : n < 2 ^ 63) :
    wrap64 n = n := by
  unfold wrap64
  rw [Int.emod_eq_of_lt (by omega) (by omega)]
  omega

/-- C5 counterexample: the claim says the executor waits for Retry-After
seconds whenever the header parses as an integer, but Retry-After
10000000000 parses (it is within int64) while time.Duration(seconds) *
time.Second wraps int64, yielding a negative duration (an immediate
return from time.Sleep) instead of a 1e10-second wait. -/
theorem retry429_overflow_counterexample :
    goAtoi "10000000000" = some 10000000000 ∧
    (makeRequestWithRetry
        (.ok { status := 429, body := "", retryAfter := "10000000000" })
        (.ok { status := 200, body := "ok", retryAfter := "" })
        (.ok ())).sleeps = [-8446744073709551616] ∧
    (makeRequestWithRetry
        (.ok { status := 429, body := "", retryAfter := "10000000000" })
        (.ok { status := 200, body := "ok", retryAfter := "" })
        (.ok ())).sleeps ≠ [(10000000000 : Int) * 1000000000] := by
  refine ⟨by decide, by decide, by decide⟩

/-- C5 amended: on a 429 the executor sleeps exactly once — for the
duration time.Duration(seconds) * time.Second computed in wrapping int64
arithmetic when the Retry-After header parses as an integer (this equals
Retry-After seconds exactly when the product stays within int64, i.e. for
seconds of magnitude at most about 9.2e9; beyond that it wraps and the
real wait differs), and for the fixed 60-second default otherwise — then
resends exactly once and returns the resend outcome as-is, with no ensure
call and no further retry. -/
theorem retry429_spec (r : HttpResponse) (h : r.status = 429) :
    (∀ (slp : Int), goAtoi r.retryAfter = some slp →
      ∀ (second : DoResult) (ens : Except String Unit),
        (makeRequestWithRetry (.ok r) second ens).sleeps
          = [goSecondsToDuration slp]) ∧
    (∀ (slp : Int), goAtoi r.retryAfter = some slp →
      -(2 ^ 63) ≤ slp * 1000000000 → slp * 1000000000 < 2 ^ 63 →
      ∀ (second : DoResult) (ens : Except String Unit),
        (makeRequestWithRetry (.ok r) second ens).sleeps
          = [slp * 1000000000]) ∧
    (goAtoi r.retryAfter = none →
      ∀ (second : DoResult) (ens : Except String Unit),
        (makeRequestWithRetry (.ok r) second ens).sleeps = [RetryAfterDefault]) ∧
    (∀ (r2 : HttpResponse) (ens : Except String Unit),
      (makeRequestWithRetry (.ok r) (.ok r2) ens).result = Except.ok r2 ∧
      (makeRequestWithRetry (.ok r) (.ok r2) ens).sends = 2 ∧
      (makeRequestWithRetry (.ok r) (.ok r2) ens).ensureCalls = 0) ∧
    (∀ (m : String) (ens : Except String Unit),
      (makeRequestWithRetry (.ok r) (.err m) ens).result
          = Except.error (ApiError.transport ("retry after rate limit failed: " ++ m)) ∧
      (makeRequestWithRetry (.ok r) (.err m) ens).sends = 2) := by
  have hsleeps : ∀ (second : DoResult) (ens : Except String Unit),
      (makeRequestWithRetry (.ok r) second ens).sleeps
        = [if r.retryAfter ≠ "" then
            (match goAtoi r.retryAfter with
              | some seconds => goSecondsToDuration seconds
              | none => RetryAfterDefault)
          else RetryAfterDefault] := by
    intro second ens
    cases second with
    | ok r2 => rw [mrwr_429_retry_ok r h r2 ens]
    | err m => rw [mrwr_429_retry_err r h m ens]
  have hdur : ∀ (slp : Int), goAtoi r.retryAfter = some slp →
      ∀ (second : DoResult) (ens : Except String Unit),
        (makeRequestWithRetry (.ok r) second ens).sleeps
          = [goSecondsToDuration slp] := by
    intro slp hparse second ens
    rw [hsleeps second ens]
    by_cases hra : r.retryAfter = ""
    · rw [hra] at hparse
      exact absurd hparse (by rw [show goAtoi "" = none from rfl]; simp)
    · rw [if_pos hra, hparse]
  refine ⟨hdur, ?_, ?_, fun r2 ens => ?_, fun m ens => ?_⟩
  · intro slp hparse hlo hhi second ens
    rw [hdur slp hparse second ens]
    rw [show goSecondsToDuration slp = wrap64 (slp * 1000000000) from rfl]
    rw [wrap64_eq_self _ hlo hhi]
  · intro hparse second ens
    rw [hsleeps second ens, hparse]
    split <;> rfl
  · have hrec := mrwr_429_retry_ok r h r2 ens
    exact ⟨by rw [hrec], by rw [hrec], by rw [hrec]⟩
  · have hrec := mrwr_429_retry_err r h m ens
    exact ⟨by rw [hrec], by rw [hrec]⟩

/-- C5 amended, evaluated: a Retry-After of 2 seconds is within int64, so
the single wait before the resend is exactly 2 seconds (2e9 ns). -/
theorem retry429_spec_witness :
    (makeRequestWithRetry
        (.ok { status := 429, body := "", retryAfter := "2" })
        (.ok { status := 200, body := "ok", retryAfter := "" })
        (.ok ())).sleeps = [(2 : Int) * 1000000000] :=
  (retry429_spec { status := 429, body := "", retryAfter := "2" } rfl).2.1
    2 (by decide) (by decide) (by decide)
    (.ok { status := 200, body := "ok", retryAfter := "" }) (.ok ())

/-- C10: a present but non-integer Retry-After header falls back to the
fixed 60-second default wait; the malformed value is silently ignored and
the resend outcome is still returned as-is. -/
theorem retry429_malformed_header (r : HttpResponse) (h : r.status = 429)
    (hpresent : r.retryAfter ≠ "") (hbad : goAtoi r.retryAfter = none) :
    ∀ (ens : Except String Unit),
      (∀ r2 : HttpResponse,
        (makeRequestWithRetry (.ok r) (.ok r2) ens).sleeps = [RetryAfterDefault] ∧
        (makeRequestWithRetry (.ok r) (.ok r2) ens).result = Except.ok r2) ∧
      (∀ m : String,
        (makeRequestWithRetry (.ok r) (.err m) ens).sleeps = [RetryAfterDefault]) := by
  intro ens
  constructor
  · intro r2
    have hrec := mrwr_429_retry_ok r h r2 ens
    refine ⟨?_, by rw [hrec]⟩
    rw [hrec]
    simp only [if_pos hpresent, hbad]
  · intro m
    have hrec := mrwr_429_retry_err r h m ens
    rw [hrec]
    simp only [if_pos hpresent, hbad]

/-- C10, evaluated: Retry-After abc falls back to the 60-second default. -/
theorem retry429_malformed_header_witness :
    (makeRequestWithRetry
        (.ok { status := 429, body := "", retryAfter := "abc" })
        (.ok { status := 200, body := "ok", retryAfter := "" })
        (.ok ())).sleeps = [RetryAfterDefault] :=
  (((retry429_malformed_header { status := 429, body := "", retryAfter := "abc" }
      rfl (by decide) (by decide)) (.ok ())).1
    { status := 200, body := "ok", retryAfter := "" }).1

/-- When the last-request timestamp is unset the throttle adds no delay. -/
theorem sendTime_none (now : Nat) : sendTime none now = now := by
  simp [sendTime, respectRateLimit]

/-- The throttled send instant is at least one minimum interval after the
recorded last-request instant. -/
theorem sendTime_ge_of_le (t now : Nat) (h : t ≤ now) :
    t + minIntervalMs ≤ sendTime (some t) now := by
  simp only [sendTime, respectRateLimit, minIntervalMs]
  split <;> omega

/-- Starting from a recorded last-request instant c, the last send of a
non-empty run of throttled calls is at least length-many minimum intervals
after c. -/
theorem runCalls_getLastD_ge :
    ∀ (calls : List (Nat × Nat)) (c d : Nat), calls ≠ [] →
      c + calls.length * minIntervalMs ≤ (runCalls (some c) c calls).getLastD d := by
  intro calls
  induction calls with
  | nil => intro c d h; exact absurd rfl h
  | cons p rest ih =>
    intro c d _
    obtain ⟨gap, dur⟩ := p
    have hs : c + minIntervalMs ≤ sendTime (some c) (c + gap) :=
      sendTime_ge_of_le c (c + gap) (Nat.le_add_right c gap)
    cases rest with
    | nil =>
      simp only [runCalls, List.getLastD_cons, List.getLastD_nil, List.length_cons,
        List.length_nil]
      omega
    | cons q rest2 =>
      have hrec : runCalls (some c) c ((gap, dur) :: q :: rest2)
          = sendTime (some c) (c + gap) ::
              runCalls (some (sendTime (some c) (c + gap) + dur))
                (sendTime (some c) (c + gap) + dur) (q :: rest2) := rfl
      rw [hrec, List.getLastD_cons]
      have hih := ih (sendTime (some c) (c + gap) + dur) (sendTime (some c) (c + gap))
        (by simp)
      simp only [List.length_cons, minIntervalMs] at hs hih ⊢
      omega

/-- C6: the throttle never blocks the first request (unset last-request
timestamp); afterwards the send instant is always at least the fixed
minimum interval (167 ms, from the 360-per-minute ceiling) after the
recorded previous request, so a run of N sequential calls spreads its first
and last sends at least (N-1) * minInterval apart. -/
theorem respectRateLimit_spec :
    (∀ now, respectRateLimit none now = 0) ∧
    (∀ t now, t ≤ now → t + minIntervalMs ≤ sendTime (some t) now) ∧
    (∀ (t0 gap dur : Nat) (rest : List (Nat × Nat)),
      (runCalls none t0 ((gap, dur) :: rest)).head! = t0 + gap ∧
      (runCalls none t0 ((gap, dur) :: rest)).head! + rest.length * minIntervalMs ≤
        (runCalls none t0 ((gap, dur) :: rest)).getLastD 0) := by
  refine ⟨fun now => rfl, sendTime_ge_of_le, fun t0 gap dur rest => ?_⟩
  have hrec : runCalls none t0 ((gap, dur) :: rest)
      = sendTime none (t0 + gap) ::
          runCalls (some (sendTime none (t0 + gap) + dur))
            (sendTime none (t0 + gap) + dur) rest := rfl
  rw [hrec, sendTime_none]
  refine ⟨rfl, ?_⟩
  rw [List.head!_cons, List.getLastD_cons]
  cases rest with
  | nil => simp [runCalls, List.getLastD_nil]
  | cons q rest2 =>
    have hih := runCalls_getLastD_ge (q :: rest2) (t0 + gap + dur) (t0 + gap) (by simp)
    simp only [List.length_cons, minIntervalMs] at hih ⊢
    omega

/-- C6, evaluated: a second call arriving immediately after the first
completes is pushed a full minimum interval later. -/
theorem respectRateLimit_spec_witness :
    0 + minIntervalMs ≤ sendTime (some 0) 0 :=
  respectRateLimit_spec.2.1 0 0 (Nat.le_refl 0)

/-- Membership in a conditional singleton pins down the element. -/
theorem mem_ite_singleton {α : Type} (c : Prop) [Decidable c] (x y : α)
    (h : x ∈ (if c then [y] else ([] : List α))) : x = y := by
  revert h
  split
  · simp
  · simp

/-- Updating every binding of one key leaves lookups of other keys
unchanged. -/
theorem lookupParam_map_update_ne (m : List (String × String)) (k v key : String)
    (h : k ≠ key) :
    lookupParam (m.map (fun p => if p.1 = k then (k, v) else p)) key
      = lookupParam m key := by
  induction m with
  | nil => rfl
  | cons p rest ih =>
    simp only [List.map_cons, lookupParam]
    by_cases hp : p.1 = k
    · have hkey : ¬(p.1 = key) := by rw [hp]; exact h
      rw [if_pos hp, if_neg h, if_neg hkey]
      exact ih
    · rw [if_neg hp]
      by_cases hk : p.1 = key
      · rw [if_pos hk, if_pos hk]
      · rw [if_neg hk, if_neg hk]
        exact ih

/-- Appending a binding for one key leaves lookups of other keys
unchanged. -/
theorem lookupParam_append_singleton_ne (m : List (String × String))
    (k v key : String) (h : k ≠ key) :
    lookupParam (m ++ [(k, v)]) key = lookupParam m key := by
  induction m with
  | nil =>
    simp only [List.nil_append, lookupParam]
    rw [if_neg h]
  | cons p rest ih =>
    simp only [List.cons_append, lookupParam]
    by_cases hk : p.1 = key
    · rw [if_pos hk, if_pos hk]
    · rw [if_neg hk, if_neg hk]
      exact ih

/-- setParam for one key leaves lookups of other keys unchanged. -/
theorem lookupParam_setParam_ne (m : List (String × String)) (k v key : String)
    (h : k ≠ key) :
    lookupParam (setParam m k v) key = lookupParam m key := by
  unfold setParam
  split
  · exact lookupParam_map_update_ne m k v key h
  · exact lookupParam_append_singleton_ne m k v key h

/-- Folding overrides whose keys all differ from the queried key leaves its
lookup unchanged. -/
theorem lookupParam_foldl_ne :
    ∀ (ovr m : List (String × String)) (key : String),
      (∀ kv ∈ ovr, kv.1 ≠ key) →
      lookupParam
        (ovr.foldl
          (fun params kv => if kv.2 ≠ "" then setParam params kv.1 kv.2 else params)
          m)
        key = lookupParam m key := by
  intro ovr
  induction ovr with
  | nil => intro m key _; rfl
  | cons kv rest ih =>
    intro m key h
    simp only [List.foldl_cons]
    rw [ih _ key (fun x hx => h x (List.mem_cons_of_mem kv hx))]
    by_cases hv : kv.2 ≠ ""
    · rw [if_pos hv]
      exact lookupParam_setParam_ne m kv.1 kv.2 key (h kv (List.mem_cons_self kv rest))
    · rw [if_neg hv]

/-- C7: the pageSize put on the wire by the scan-listing accessor is always
the platform maximum when the caller requests more than the maximum, and
the maximum is sent by default when no size is supplied (no options at all,
or a non-positive size field). -/
theorem pageSize_clamped :
    (∀ o : PaginationOptions, MaxPageSize < o.pageSize →
      lookupParam (ListOrganizationScansParams (some o)) "pageSize" = some "1000") ∧
    (∀ o : PaginationOptions, o.pageSize ≤ 0 →
      lookupParam (ListOrganizationScansParams (some o)) "pageSize" = some "1000") ∧
    lookupParam (ListOrganizationScansParams none) "pageSize" = some "1000" := by
  have hB : ∀ (o : PaginationOptions) (kv : String × String),
      kv ∈ (if o.pageToken ≠ "" then [("pageToken", o.pageToken)] else []) →
      kv.1 ≠ "pageSize" := by
    intro o kv hkv
    rw [mem_ite_singleton _ _ _ hkv]
    exact (by decide : ("pageToken" : String) ≠ "pageSize")
  have hC : ∀ (o : PaginationOptions) (kv : String × String),
      kv ∈ (if o.page ≠ "" then [("page", o.page)] else []) →
      kv.1 ≠ "pageSize" := by
    intro o kv hkv
    rw [mem_ite_singleton _ _ _ hkv]
    exact (by decide : ("page" : String) ≠ "pageSize")
  have hD : ∀ (o : PaginationOptions) (kv : String × String),
      kv ∈ (if o.sortField ≠ "" then [("sortField", o.sortField)] else []) →
      kv.1 ≠ "pageSize" := by
    intro o kv hkv
    rw [mem_ite_singleton _ _ _ hkv]
    exact (by decide : ("sortField" : String) ≠ "pageSize")
  have hE : ∀ (o : PaginationOptions) (kv : String × String),
      kv ∈ (if o.sortDir ≠ "" then [("sortDir", o.sortDir)] else []) →
      kv.1 ≠ "pageSize" := by
    intro o kv hkv
    rw [mem_ite_singleton _ _ _ hkv]
    exact (by decide : ("sortDir" : String) ≠ "pageSize")
  refine ⟨?_, ?_, rfl⟩
  · intro o h
    have h1000 : (1000 : Int) < o.pageSize := by simpa [MaxPageSize] using h
    have h0 : o.pageSize > 0 := by omega
    simp only [ListOrganizationScansParams, scanListOverrides, BuildStandardParams]
    rw [if_pos h0, if_pos h]
    rw [List.foldl_append, List.foldl_append, List.foldl_append, List.foldl_append]
    rw [lookupParam_foldl_ne _ _ _ (hE o), lookupParam_foldl_ne _ _ _ (hD o),
      lookupParam_foldl_ne _ _ _ (hC o), lookupParam_foldl_ne _ _ _ (hB o)]
    rfl
  · intro o h
    have h0 : ¬(o.pageSize > 0) := by omega
    simp only [ListOrganizationScansParams, scanListOverrides, BuildStandardParams]
    rw [if_neg h0]
    simp only [List.nil_append]
    rw [List.foldl_append, List.foldl_append, List.foldl_append]
    rw [lookupParam_foldl_ne _ _ _ (hE o), lookupParam_foldl_ne _ _ _ (hD o),
      lookupParam_foldl_ne _ _ _ (hC o), lookupParam_foldl_ne _ _ _ (hB o)]
    rfl

/-- C7, evaluated: a requested pageSize of 2000 goes on the wire as 1000,
and absent options also yield 1000. -/
theorem pageSize_clamped_witness :
    lookupParam
      (ListOrganizationScansParams
        (some { pageSize := 2000, pageToken := "", page := "",
                sortField := "", sortDir := "" }))
      "pageSize" = some "1000" :=
  pageSize_clamped.1
    { pageSize := 2000, pageToken := "", page := "", sortField := "", sortDir := "" }
    (by decide)

/-- C8: ListOrganizations returns exactly one organization per membership
entry of the current user profile, in membership order, with no
deduplication (the concrete case shows two memberships of the same org id
both surviving). -/
theorem listOrganizations_spec (u : User) :
    ListOrganizations u = u.external.organizations.map (fun m => m.organization) ∧
    (ListOrganizations u).length = u.external.organizations.length ∧
    ListOrganizations
      { stackhawkId := "u1",
        external :=
          { id := "e", email := "a@b", firstName := "f", lastName := "l",
            fullName := "f l", avatarUrl := "",
            organizations :=
              [{ organization :=
                   { id := "org1", name := "Acme", plan := "", createdTimestamp := "" },
                 role := "OWNER" },
               { organization :=
                   { id := "org1", name := "Acme", plan := "", createdTimestamp := "" },
                 role := "MEMBER" }] } }
      = [{ id := "org1", name := "Acme", plan := "", createdTimestamp := "" },
         { id := "org1", name := "Acme", plan := "", createdTimestamp := "" }] := by
  refine ⟨?_, ?_, rfl⟩
  · simpa using foldl_append_singleton
      (fun m : OrganizationMembership => m.organization) u.external.organizations []
  · have h := foldl_append_singleton
      (fun m : OrganizationMembership => m.organization) u.external.organizations []
    simp [ListOrganizations] at h ⊢
    simp [h]

/-- C9: GetScanAlerts flattens the per-application alert arrays into their
concatenation, preserving order within each application and across the
applications (join of the mapped arrays). -/
theorem getScanAlerts_flatten (resp : ScanAlertsResponse) :
    GetScanAlertsExtract resp
      = (resp.applicationScanResults.map (fun r => r.applicationAlerts)).flatten := by
  simpa using foldl_append_lists
    (fun r : ApplicationAlertsResult => r.applicationAlerts)
    resp.applicationScanResults []

end Hawkop
